import Mathlib

/-!
Shallow embedding of the transaction query/aggregation engine of
src/controllers/transactionController.js together with the validation rules of
src/routes (the transaction router embedded in src/routes/auth.js).

The document store (Mongo) is embedded as a `List Transaction`; each controller
becomes a pure function from the database and the (already parsed) request to a
response value.  Dates are embedded as calendar components plus milliseconds
within the day; BSON date comparison (a comparison of timestamps) becomes the
lexicographic comparison of those components, realised through the monotone
integer encoding `Tdate.key`.  Amounts are embedded as rationals.
-/

/-- A point in time as stored in a transaction document: calendar components
plus the milliseconds elapsed within the day.  A JS `Date` built from an
ISO string `YYYY-MM-DD` has `ms = 0` (midnight UTC at the start of that day). -/
structure Tdate where
  year : Int
  month : Nat
  day : Nat
  ms : Nat
deriving DecidableEq

/-- Monotone integer encoding of a `Tdate`.  For valid dates (month 1..12,
day 1..31, ms < 86400000) it is order-isomorphic to the timestamp order used
by JS `Date` / BSON date comparison. -/
def Tdate.key (d : Tdate) : Int :=
  ((d.year * 13 + d.month) * 32 + d.day) * 86400000 + d.ms

/-- Calendar validity of the stored components. -/
def validDate (d : Tdate) : Prop :=
  1 ≤ d.month ∧ d.month ≤ 12 ∧ 1 ≤ d.day ∧ d.day ≤ 31 ∧ d.ms < 86400000

instance (d : Tdate) : Decidable (validDate d) := by
  unfold validDate; infer_instance

/-- A transaction document (the fields used by the controllers; `_id` is
embedded as `id`, the owner reference `userId` as a natural number). -/
structure Transaction where
  id : Nat
  userId : Nat
  date : Tdate
  description : String
  amount : Rat
  category : String
  type : String
deriving DecidableEq

/-- Does the second character list start with the first? -/
def charsStart : List Char → List Char → Bool
  | [], _ => true
  | _ :: _, [] => false
  | c :: cs, d :: ds => c == d && charsStart cs ds

/-- Does the second character list contain the first as a contiguous run? -/
def charsHas (p : List Char) : List Char → Bool
  | [] => charsStart p []
  | d :: ds => charsStart p (d :: ds) || charsHas p ds

/-- Case-insensitive substring test: the embedding of the controller's
`$regex pattern, $options i` filters, read as a literal (unescaped) substring
match on the lower-cased strings. -/
def containsCI (pat s : String) : Bool :=
  charsHas pat.toLower.toList s.toLower.toList

/-- The `filter.date` clause built by the controllers from optional
`startDate` / `endDate` query values (`$gte` / `$lte`, both inclusive). -/
def dateInRange (startDate endDate : Option Tdate) (d : Tdate) : Bool :=
  (match startDate with
   | some s => decide (s.key ≤ d.key)
   | none => true) &&
  (match endDate with
   | some e => decide (d.key ≤ e.key)
   | none => true)

/-- The query of the list operation, after the express-validator layer has
parsed it: `page` and `limit` are the numeric values of the query strings
(JS relational operators compare a numeric string with a number numerically,
and `parseInt` is applied where the source does arithmetic on them). -/
structure ListQuery where
  startDate : Option Tdate
  endDate : Option Tdate
  category : Option String
  type : Option String
  description : Option String
  page : Nat
  limit : Nat
  sortBy : String
  sortOrder : String
deriving DecidableEq

/-- The Mongo filter object built by `getTransactions` (lines 30-46):
always `userId`, then optional date range, category substring, exact type,
description substring. -/
def matchesFilter (uid : Nat) (q : ListQuery) (t : Transaction) : Bool :=
  (t.userId == uid) &&
  dateInRange q.startDate q.endDate t.date &&
  (match q.category with
   | some c => containsCI c t.category
   | none => true) &&
  (match q.type with
   | some ty => t.type == ty
   | none => true) &&
  (match q.description with
   | some dsc => containsCI dsc t.description
   | none => true)

/-- Comparison on the sort field named by `sortBy` (ascending direction). -/
def txFieldLe (sb : String) (a b : Transaction) : Bool :=
  if sb = "date" then decide (a.date.key ≤ b.date.key)
  else if sb = "amount" then decide (a.amount ≤ b.amount)
  else if sb = "description" then decide (a.description ≤ b.description)
  else if sb = "category" then decide (a.category ≤ b.category)
  else if sb = "type" then decide (a.type ≤ b.type)
  else true

/-- The sort object `sortObj[sortBy] = sortOrder === desc ? -1 : 1`
(line 51): descending exactly when `sortOrder` is the string `desc`. -/
def txSortLe (sb so : String) (a b : Transaction) : Bool :=
  if so = "desc" then txFieldLe sb b a else txFieldLe sb a b

/-- Pagination metadata of the list response (lines 67-73). -/
structure Pagination where
  currentPage : Nat
  totalPages : Nat
  totalTransactions : Nat
  hasNextPage : Bool
  hasPrevPage : Bool
deriving DecidableEq

/-- Payload of a successful list response. -/
structure ListResult where
  transactions : List Transaction
  pagination : Pagination
deriving DecidableEq

/-- `getTransactions` (post-validation body, lines 18-75): filter, sort,
skip/limit page slice, true total count, `Math.ceil` page count, and the
boolean page indicators computed by numeric comparison. -/
def getTransactions (db : List Transaction) (uid : Nat) (q : ListQuery) : ListResult :=
  let matched := db.filter (fun t => matchesFilter uid q t)
  let sorted := @List.insertionSort Transaction
    (fun a b => txSortLe q.sortBy q.sortOrder a b = true)
    (fun a b => Bool.decEq _ _) matched
  let total := matched.length
  let totalPages := (total + q.limit - 1) / q.limit
  { transactions := (sorted.drop ((q.page - 1) * q.limit)).take q.limit
    pagination :=
      { currentPage := q.page
        totalPages := totalPages
        totalTransactions := total
        hasNextPage := decide (q.page < totalPages)
        hasPrevPage := decide (1 < q.page) } }

/-- Body of a single-record (lookup / update / delete) response: HTTP status,
the success flag and message of the JSON envelope, and the returned document. -/
structure SingleResponse where
  status : Nat
  success : Bool
  message : String
  transaction : Option Transaction
deriving DecidableEq

/-- The 404 envelope shared verbatim by lookup, update and delete
(`Transaction not found`), produced both when no document has the requested
id and when the document is owned by another user. -/
def notFoundResponse : SingleResponse :=
  { status := 404, success := false, message := "Transaction not found",
    transaction := none }

/-- The owner-scoped identifier lookup used by `findOne`, `findOneAndUpdate`
and `findOneAndDelete`: both `_id` and `userId` must match. -/
def idOwnerMatch (i uid : Nat) (t : Transaction) : Bool :=
  t.id == i && t.userId == uid

/-- `getTransaction` (post-validation body, lines 99-114). -/
def getTransaction (db : List Transaction) (uid : Nat) (i : Nat) : SingleResponse :=
  match db.find? (idOwnerMatch i uid) with
  | none => notFoundResponse
  | some t =>
    { status := 200, success := true, message := "", transaction := some t }

/-- The sparse update body: each field either absent from the request body or
present with its parsed value.  A field that is present passed the optional
per-field validation, so it is a truthy JS value and enters `updateData`. -/
structure UpdateBody where
  date : Option Tdate
  description : Option String
  amount : Option Rat
  category : Option String
  type : Option String
deriving DecidableEq

/-- The `$set` document built at lines 179-186 applied to a stored document:
present fields overwrite (strings trimmed as in the source), absent fields
keep the stored value; `userId`, `_id` are never touched. -/
def applyUpdate (b : UpdateBody) (t : Transaction) : Transaction :=
  { t with
    date := b.date.getD t.date
    description := (b.description.map String.trim).getD t.description
    amount := b.amount.getD t.amount
    category := (b.category.map String.trim).getD t.category
    type := b.type.getD t.type }

/-- Replace the first list element satisfying `p` by its image under `f`
(the effect of `findOneAndUpdate` on the collection). -/
def updateFirst (p : Transaction → Bool) (f : Transaction → Transaction) :
    List Transaction → List Transaction
  | [] => []
  | t :: ts => if p t then f t :: ts else t :: updateFirst p f ts

/-- `updateTransaction` (post-validation body, lines 179-205): owner-scoped
`findOneAndUpdate` with the sparse `$set`, returning the updated document
(`new: true`) and the updated collection. -/
def updateTransaction (db : List Transaction) (uid : Nat) (i : Nat)
    (b : UpdateBody) : SingleResponse × List Transaction :=
  match db.find? (idOwnerMatch i uid) with
  | none => (notFoundResponse, db)
  | some t =>
    ({ status := 200, success := true,
       message := "Transaction updated successfully",
       transaction := some (applyUpdate b t) },
     updateFirst (idOwnerMatch i uid) (applyUpdate b) db)

/-- `deleteTransaction` (post-validation body, lines 229-245): owner-scoped
`findOneAndDelete`, returning the prior state of the deleted document. -/
def deleteTransaction (db : List Transaction) (uid : Nat) (i : Nat) :
    SingleResponse × List Transaction :=
  match db.find? (idOwnerMatch i uid) with
  | none => (notFoundResponse, db)
  | some t =>
    ({ status := 200, success := true,
       message := "Transaction deleted successfully",
       transaction := some t },
     db.eraseP (idOwnerMatch i uid))

/-- Query of the type-statistics operation (line 260). -/
structure StatsQuery where
  startDate : Option Tdate
  endDate : Option Tdate
deriving DecidableEq

/-- The `$match` filter of `getTransactionStats` (lines 261-267). -/
def statsMatches (uid : Nat) (q : StatsQuery) (t : Transaction) : Bool :=
  (t.userId == uid) && dateInRange q.startDate q.endDate t.date

/-- The derived payload of the type-statistics response (lines 288-297). -/
structure TypeStats where
  totalIncome : Rat
  totalExpense : Rat
  netAmount : Rat
  incomeCount : Nat
  expenseCount : Nat
  totalTransactions : Nat
  averageIncome : Rat
  averageExpense : Rat
deriving DecidableEq

/-- `getTransactionStats` (lines 260-298).  The `$group` by `$type` produces
one group per type value present among the matched documents, with `$sum`,
count and `$avg`; the handler then reads the Income and Expense groups with
`?.field || 0`, so a missing group contributes the number 0 and a present
group contributes its sum / count / mean. -/
def getTransactionStats (db : List Transaction) (uid : Nat) (q : StatsQuery) :
    TypeStats :=
  let matched := db.filter (fun t => statsMatches uid q t)
  let inc := matched.filter (fun t => t.type == "Income")
  let exp := matched.filter (fun t => t.type == "Expense")
  let totalIncome := (inc.map Transaction.amount).sum
  let totalExpense := (exp.map Transaction.amount).sum
  { totalIncome := totalIncome
    totalExpense := totalExpense
    netAmount := totalIncome - totalExpense
    incomeCount := inc.length
    expenseCount := exp.length
    totalTransactions := inc.length + exp.length
    averageIncome := if inc.length = 0 then 0 else totalIncome / (inc.length : Rat)
    averageExpense := if exp.length = 0 then 0 else totalExpense / (exp.length : Rat) }

/-- Query of the category-statistics operation (line 313). -/
structure CatQuery where
  startDate : Option Tdate
  endDate : Option Tdate
  type : Option String
deriving DecidableEq

/-- The `$match` filter of `getCategoryStats` (lines 314-322): owner, optional
date range, optional exact type (taken from the query as-is). -/
def catMatches (uid : Nat) (q : CatQuery) (t : Transaction) : Bool :=
  (t.userId == uid) && dateInRange q.startDate q.endDate t.date &&
  (match q.type with
   | some ty => t.type == ty
   | none => true)

/-- One entry of the category-statistics response (lines 341-347). -/
structure CatStat where
  category : String
  type : String
  total : Rat
  count : Nat
  average : Rat
deriving DecidableEq

/-- The descending-by-total order used by the `$sort total: -1` stage. -/
def catGe (a b : CatStat) : Prop := b.total ≤ a.total

instance : DecidableRel catGe :=
  fun a b => inferInstanceAs (Decidable (b.total ≤ a.total))

instance : IsTotal CatStat catGe := ⟨fun a b => le_total b.total a.total⟩

instance : IsTrans CatStat catGe := ⟨fun _ _ _ h1 h2 => le_trans h2 h1⟩

/-- The grouping key of the category pipeline: the (category, type) pair. -/
def catKey (t : Transaction) : String × String := (t.category, t.type)

/-- `getCategoryStats` (lines 313-348): `$match`, `$group` by the
(category, type) pair with sum / count / mean (one group per distinct key
present among the matched documents), `$sort` descending by total. -/
def getCategoryStats (db : List Transaction) (uid : Nat) (q : CatQuery) :
    List CatStat :=
  let matched := db.filter (fun t => catMatches uid q t)
  let keys := (matched.map catKey).dedup
  let groups := keys.map (fun k =>
    let g := matched.filter (fun t => catKey t == k)
    let total := (g.map Transaction.amount).sum
    { category := k.1, type := k.2, total := total, count := g.length,
      average := total / (g.length : Rat) })
  List.insertionSort catGe groups

/-- The `$match` filter of `getMonthlyStats` (lines 364-370).  With a year
the range runs from the `Date` parsed from `year-01-01` to the `Date` parsed
from `year-12-31` — both midnight instants at the START of those days. -/
def yearFilterMatches (uid : Nat) (year : Option Int) (t : Transaction) : Bool :=
  (t.userId == uid) &&
  (match year with
   | none => true
   | some y =>
     decide ((Tdate.mk y 1 1 0).key ≤ t.date.key) &&
     decide (t.date.key ≤ (Tdate.mk y 12 31 0).key))

/-- One entry of the monthly-statistics response (lines 394-401 and 415-419). -/
structure MonthStat where
  year : Int
  month : Nat
  income : Rat
  expense : Rat
  incomeCount : Nat
  expenseCount : Nat
  net : Rat
  totalTransactions : Nat
deriving DecidableEq

/-- The grouping key of the month roll-up: the (year, month) pair. -/
def monthKey (t : Transaction) : Int × Nat := (t.date.year, t.date.month)

/-- `getMonthlyStats` (lines 363-424): `$match`, `$group` by
(year, month, type), then the JS reduce that merges the per-type groups into
one record per (year, month) initialised with income/expense 0 and counts 0;
the Income group fills the income side, the other (under the schema enum, the
Expense) group fills the expense side; finally net and the total count are
derived.  The claims under proof do not concern the output order. -/
def getMonthlyStats (db : List Transaction) (uid : Nat) (year : Option Int) :
    List MonthStat :=
  let matched := db.filter (fun t => yearFilterMatches uid year t)
  let keys := (matched.map monthKey).dedup
  keys.map (fun k =>
    let g := matched.filter (fun t => monthKey t == k)
    let inc := g.filter (fun t => t.type == "Income")
    let exp := g.filter (fun t => t.type != "Income")
    let income := (inc.map Transaction.amount).sum
    let expense := (exp.map Transaction.amount).sum
    { year := k.1, month := k.2, income := income, expense := expense,
      incomeCount := inc.length, expenseCount := exp.length,
      net := income - expense,
      totalTransactions := inc.length + exp.length })

/-- A JSON response envelope with its HTTP status. -/
structure Response (α : Type) where
  status : Nat
  success : Bool
  data : Option α
  errors : List String
deriving DecidableEq

/-- The type rule of the router's `queryValidation` chain (the transaction
router embedded in src/routes/auth.js, line 100): an optional query `type`
must be Income or Expense, otherwise a field-level message is recorded by the
validation middleware. -/
def typeQueryErrors (ty : Option String) : List String :=
  match ty with
  | none => []
  | some t =>
    if t == "Income" || t == "Expense" then []
    else ["Type must be Income or Expense"]

/-- The full `getTransactions` handler (lines 7-83): it first consults
`validationResult`; a non-empty error list short-circuits to a 400 envelope
with the field messages, before any storage access. -/
def getTransactionsHandler (errs : List String) (db : List Transaction)
    (uid : Nat) (q : ListQuery) : Response ListResult :=
  if errs.isEmpty then
    { status := 200, success := true, data := some (getTransactions db uid q),
      errors := [] }
  else
    { status := 400, success := false, data := none, errors := errs }

/-- The full `getTransactionStats` handler (lines 258-306): unlike the five
CRUD handlers it never consults `validationResult`, so the recorded field
errors are ignored and the aggregation always runs. -/
def getTransactionStatsHandler (errs : List String) (db : List Transaction)
    (uid : Nat) (q : StatsQuery) : Response TypeStats :=
  { status := 200, success := true, data := some (getTransactionStats db uid q),
    errors := [] }

/-- The full `getCategoryStats` handler (lines 311-356): it also never
consults `validationResult`; the query `type`, validated or not, goes
straight into the `$match` filter. -/
def getCategoryStatsHandler (errs : List String) (db : List Transaction)
    (uid : Nat) (q : CatQuery) : Response (List CatStat) :=
  { status := 200, success := true, data := some (getCategoryStats db uid q),
    errors := [] }

/-- The full `getMonthlyStats` handler (lines 361-432): it never consults
`validationResult` either (and the router chain does not even validate
`year`). -/
def getMonthlyStatsHandler (errs : List String) (db : List Transaction)
    (uid : Nat) (year : Option Int) : Response (List MonthStat) :=
  { status := 200, success := true, data := some (getMonthlyStats db uid year),
    errors := [] }

/-- The per-field rules of the router's `updateTransactionValidation` chain
(optional trimmed description of length 1..200, optional amount of at least
0.01, optional trimmed category of length 1..50, optional enum type; dates are
represented already parsed, so the ISO-8601 rule has no residue here). -/
def validUpdateBody (b : UpdateBody) : Bool :=
  (match b.description with
   | none => true
   | some s => decide (1 ≤ s.trim.length) && decide (s.trim.length ≤ 200)) &&
  (match b.amount with
   | none => true
   | some a => decide ((1 : Rat) / 100 ≤ a)) &&
  (match b.category with
   | none => true
   | some s => decide (1 ≤ s.trim.length) && decide (s.trim.length ≤ 50)) &&
  (match b.type with
   | none => true
   | some s => s == "Income" || s == "Expense")

/-- Validity of a stored document, mirroring the creation rules of the
router's `transactionValidation` chain field by field (the stored description
and category are the trimmed request values). -/
def validTx (t : Transaction) : Bool :=
  decide (1 ≤ t.description.length) && decide (t.description.length ≤ 200) &&
  decide ((1 : Rat) / 100 ≤ t.amount) &&
  decide (1 ≤ t.category.length) && decide (t.category.length ≤ 50) &&
  (t.type == "Income" || t.type == "Expense")

/-! ## Helper lemmas -/

lemma matchesFilter_userId {uid : Nat} {q : ListQuery} {t : Transaction}
    (h : matchesFilter uid q t = true) : t.userId = uid := by
  unfold matchesFilter at h
  simp only [Bool.and_eq_true, beq_iff_eq] at h
  exact h.1.1.1.1

lemma statsMatches_userId {uid : Nat} {q : StatsQuery} {t : Transaction}
    (h : statsMatches uid q t = true) : t.userId = uid := by
  unfold statsMatches at h
  simp only [Bool.and_eq_true, beq_iff_eq] at h
  exact h.1

lemma catMatches_userId {uid : Nat} {q : CatQuery} {t : Transaction}
    (h : catMatches uid q t = true) : t.userId = uid := by
  unfold catMatches at h
  simp only [Bool.and_eq_true, beq_iff_eq] at h
  exact h.1.1

lemma yearFilterMatches_userId {uid : Nat} {y : Option Int} {t : Transaction}
    (h : yearFilterMatches uid y t = true) : t.userId = uid := by
  unfold yearFilterMatches at h
  simp only [Bool.and_eq_true, beq_iff_eq] at h
  exact h.1

lemma idOwnerMatch_userId {i uid : Nat} {t : Transaction}
    (h : idOwnerMatch i uid t = true) : t.userId = uid := by
  unfold idOwnerMatch at h
  simp only [Bool.and_eq_true, beq_iff_eq] at h
  exact h.2

lemma applyUpdate_userId (b : UpdateBody) (t : Transaction) :
    (applyUpdate b t).userId = t.userId := rfl

lemma mem_updateFirst {p : Transaction → Bool} {f : Transaction → Transaction}
    {l : List Transaction} {u : Transaction} (h : u ∈ updateFirst p f l) :
    u ∈ l ∨ ∃ t, t ∈ l ∧ p t = true ∧ u = f t := by
  induction l with
  | nil => simp [updateFirst] at h
  | cons a l ih =>
    rw [updateFirst] at h
    by_cases hp : p a
    · rw [if_pos hp] at h
      rcases List.mem_cons.mp h with h1 | h1
      · exact Or.inr ⟨a, List.mem_cons_self a l, hp, h1⟩
      · exact Or.inl (List.mem_cons_of_mem _ h1)
    · rw [if_neg hp] at h
      rcases List.mem_cons.mp h with h1 | h1
      · exact Or.inl (h1 ▸ List.mem_cons_self a l)
      · rcases ih h1 with h2 | ⟨t, ht, hpt, hu⟩
        · exact Or.inl (List.mem_cons_of_mem _ h2)
        · exact Or.inr ⟨t, List.mem_cons_of_mem _ ht, hpt, hu⟩

lemma updateFirst_id {p : Transaction → Bool} {f : Transaction → Transaction}
    (hf : ∀ t, f t = t) (l : List Transaction) : updateFirst p f l = l := by
  induction l with
  | nil => rfl
  | cons a l ih => simp [updateFirst, hf, ih]

lemma find?_mem_updateFirst {p : Transaction → Bool} {f : Transaction → Transaction}
    {l : List Transaction} {t : Transaction}
    (h : l.find? p = some t) : f t ∈ updateFirst p f l := by
  induction l with
  | nil => simp at h
  | cons a l ih =>
    by_cases hp : p a
    · rw [List.find?_cons_of_pos _ hp] at h
      injection h with h
      subst h
      simp [updateFirst, hp]
    · rw [List.find?_cons_of_neg _ hp] at h
      simp only [updateFirst, if_neg hp, List.mem_cons]
      exact Or.inr (ih h)

lemma natCeilDiv_eq (a b : Nat) (hb : 0 < b) :
    (a + b - 1) / b = ⌈(a : ℚ) / (b : ℚ)⌉₊ := by
  have hbq : (0 : ℚ) < (b : ℚ) := by exact_mod_cast hb
  refine Nat.le_antisymm ?_ ?_
  · rw [Nat.div_le_iff_le_mul_add_pred hb]
    have h1 : (a : ℚ) ≤ (⌈(a : ℚ) / (b : ℚ)⌉₊ : ℚ) * (b : ℚ) := by
      have h0 := Nat.le_ceil ((a : ℚ) / (b : ℚ))
      have h2 := mul_le_mul_of_nonneg_right h0 hbq.le
      rwa [div_mul_cancel₀ _ (ne_of_gt hbq)] at h2
    have h3 : a ≤ ⌈(a : ℚ) / (b : ℚ)⌉₊ * b := by exact_mod_cast h1
    have h7 : ⌈(a : ℚ) / (b : ℚ)⌉₊ * b = b * ⌈(a : ℚ) / (b : ℚ)⌉₊ :=
      Nat.mul_comm _ _
    omega
  · rw [Nat.ceil_le, div_le_iff₀ hbq]
    have h4 : a ≤ ((a + b - 1) / b) * b := by
      have h5 := Nat.div_add_mod (a + b - 1) b
      have h6 : (a + b - 1) % b < b := Nat.mod_lt _ hb
      have h7 : ((a + b - 1) / b) * b = b * ((a + b - 1) / b) :=
        Nat.mul_comm _ _
      omega
    exact_mod_cast h4

/-! ## Concrete example data -/

/-- An Income document of user 1 dated 2024-01-05, amount 100. -/
def exIncome : Transaction :=
  { id := 1, userId := 1, date := ⟨2024, 1, 5, 0⟩, description := "salary",
    amount := 100, category := "Job", type := "Income" }

/-- An Expense document of user 1 dated 2024-01-10, amount 40. -/
def exExpense : Transaction :=
  { id := 2, userId := 1, date := ⟨2024, 1, 10, 0⟩, description := "food",
    amount := 40, category := "Groceries", type := "Expense" }

/-- The two-document store of the scenario in the spec. -/
def exDb : List Transaction := [exIncome, exExpense]

/-- The January 2024 date-range query of the scenario. -/
def exJanQuery : StatsQuery := ⟨some ⟨2024, 1, 1, 0⟩, some ⟨2024, 1, 31, 0⟩⟩

/-! ## Claim theorems -/

/-- The empty update body: no updatable field supplied. -/
def emptyBody : UpdateBody := ⟨none, none, none, none, none⟩

/-- A plain list query of user 1: no filters, first page of ten, default
sort. -/
def exListQuery : ListQuery :=
  ⟨none, none, none, none, none, 1, 10, "date", "desc"⟩

/-- C1: every transaction operation is owner-scoped.  Every record returned
by the list operation or the single lookup, the record reported or stored by
an update, the record removed by a delete, and every record entering any of
the three statistics pipelines has `userId` equal to the authenticated
requester, because every storage filter includes the requester's `userId`. -/
theorem c1_owner_scoping (db : List Transaction) (uid : Nat) (q : ListQuery)
    (i : Nat) (b : UpdateBody) (sq : StatsQuery) (cq : CatQuery) (y : Option Int) :
    (∀ t ∈ (getTransactions db uid q).transactions, t.userId = uid) ∧
    (∀ t, (getTransaction db uid i).transaction = some t → t.userId = uid) ∧
    (∀ t, (updateTransaction db uid i b).1.transaction = some t → t.userId = uid) ∧
    (∀ u ∈ (updateTransaction db uid i b).2, u ∈ db ∨ u.userId = uid) ∧
    (∀ t, (deleteTransaction db uid i).1.transaction = some t → t.userId = uid) ∧
    (∀ u ∈ db, u ∉ (deleteTransaction db uid i).2 → u.userId = uid) ∧
    (∀ t ∈ db.filter (fun t => statsMatches uid sq t), t.userId = uid) ∧
    (∀ t ∈ db.filter (fun t => catMatches uid cq t), t.userId = uid) ∧
    (∀ t ∈ db.filter (fun t => yearFilterMatches uid y t), t.userId = uid) := by
  refine ⟨?_, ?_, ?_, ?_, ?_, ?_, ?_, ?_, ?_⟩
  · intro t ht
    simp only [getTransactions] at ht
    have h1 := List.mem_of_mem_drop (List.mem_of_mem_take ht)
    have h2 := (@List.perm_insertionSort Transaction
      (fun a b => txSortLe q.sortBy q.sortOrder a b = true)
      (fun a b => Bool.decEq _ _)
      (db.filter (fun t => matchesFilter uid q t))).mem_iff.mp h1
    exact matchesFilter_userId (List.of_mem_filter h2)
  · intro t ht
    cases hfind : db.find? (idOwnerMatch i uid) with
    | none => simp [getTransaction, hfind, notFoundResponse] at ht
    | some u =>
      simp only [getTransaction, hfind, Option.some.injEq] at ht
      subst ht
      exact idOwnerMatch_userId (List.find?_some hfind)
  · intro t ht
    cases hfind : db.find? (idOwnerMatch i uid) with
    | none => simp [updateTransaction, hfind, notFoundResponse] at ht
    | some u =>
      simp only [updateTransaction, hfind, Option.some.injEq] at ht
      subst ht
      rw [applyUpdate_userId]
      exact idOwnerMatch_userId (List.find?_some hfind)
  · intro u hu
    cases hfind : db.find? (idOwnerMatch i uid) with
    | none =>
      simp only [updateTransaction, hfind] at hu
      exact Or.inl hu
    | some w =>
      simp only [updateTransaction, hfind] at hu
      rcases mem_updateFirst hu with h1 | ⟨t0, _, hp, hu0⟩
      · exact Or.inl h1
      · exact Or.inr (hu0 ▸ idOwnerMatch_userId hp)
  · intro t ht
    cases hfind : db.find? (idOwnerMatch i uid) with
    | none => simp [deleteTransaction, hfind, notFoundResponse] at ht
    | some u =>
      simp only [deleteTransaction, hfind, Option.some.injEq] at ht
      subst ht
      exact idOwnerMatch_userId (List.find?_some hfind)
  · intro u hu hnot
    cases hfind : db.find? (idOwnerMatch i uid) with
    | none =>
      simp only [deleteTransaction, hfind] at hnot
      exact absurd hu hnot
    | some w =>
      simp only [deleteTransaction, hfind] at hnot
      by_cases hp : idOwnerMatch i uid u = true
      · exact idOwnerMatch_userId hp
      · exact absurd ((List.mem_eraseP_of_neg hp).mpr hu) hnot
  · intro t ht
    exact statsMatches_userId (List.of_mem_filter ht)
  · intro t ht
    exact catMatches_userId (List.of_mem_filter ht)
  · intro t ht
    exact yearFilterMatches_userId (List.of_mem_filter ht)

/-- Witness for C1 at a concrete input: the Income document of user 1 passes
the type-stats storage filter of user 1, so the theorem yields its owner id. -/
theorem c1_owner_scoping_witness : exIncome.userId = 1 :=
  (c1_owner_scoping exDb 1 exListQuery 1 emptyBody ⟨none, none⟩
      ⟨none, none, none⟩ none).2.2.2.2.2.2.1 exIncome
    (by simp [exDb, exIncome, statsMatches, dateInRange])

/-- C2: for every successful filtered list request the pagination metadata is
computed from the true matching count: totalPages is the ceiling of
totalTransactions / limit, hasNextPage holds exactly when page < totalPages,
hasPrevPage exactly when page > 1.  The comparisons in the source are numeric
even when page arrives as a query string, because a JS relational operator
between a string and a number coerces the string numerically, so the embedding
carries the parsed numeric page and limit. -/
theorem c2_pagination_metadata (db : List Transaction) (uid : Nat)
    (q : ListQuery) (hl : 1 ≤ q.limit) :
    (getTransactions db uid q).pagination.totalPages =
      ⌈((getTransactions db uid q).pagination.totalTransactions : ℚ) /
        (q.limit : ℚ)⌉₊ ∧
    ((getTransactions db uid q).pagination.hasNextPage = true ↔
      q.page < (getTransactions db uid q).pagination.totalPages) ∧
    ((getTransactions db uid q).pagination.hasPrevPage = true ↔ 1 < q.page) ∧
    (getTransactions db uid q).pagination.totalTransactions =
      (db.filter (fun t => matchesFilter uid q t)).length := by
  refine ⟨?_, ?_, ?_, rfl⟩
  · exact natCeilDiv_eq _ _ hl
  · exact decide_eq_true_iff
  · exact decide_eq_true_iff

/-- Witness for C2 at a concrete input: the two-document store, user 1, the
plain list query with limit 10. -/
theorem c2_pagination_metadata_witness :
    (getTransactions exDb 1 exListQuery).pagination.totalPages =
      ⌈((getTransactions exDb 1 exListQuery).pagination.totalTransactions : ℚ) /
        (exListQuery.limit : ℚ)⌉₊ ∧
    ((getTransactions exDb 1 exListQuery).pagination.hasNextPage = true ↔
      exListQuery.page < (getTransactions exDb 1 exListQuery).pagination.totalPages) ∧
    ((getTransactions exDb 1 exListQuery).pagination.hasPrevPage = true ↔
      1 < exListQuery.page) ∧
    (getTransactions exDb 1 exListQuery).pagination.totalTransactions =
      (exDb.filter (fun t => matchesFilter 1 exListQuery t)).length :=
  c2_pagination_metadata exDb 1 exListQuery (by decide)

/-- C3: in every type-statistics response netAmount equals
totalIncome - totalExpense; a type with no matching records yields total 0,
count 0 and average 0 (the number zero, not a missing value); and on the
concrete two-document January 2024 scenario the response is
totalIncome 100, totalExpense 40, netAmount 60, totalTransactions 2. -/
theorem c3_type_stats (db : List Transaction) (uid : Nat) (q : StatsQuery) :
    (getTransactionStats db uid q).netAmount =
      (getTransactionStats db uid q).totalIncome -
        (getTransactionStats db uid q).totalExpense ∧
    ((db.filter (fun t => statsMatches uid q t)).filter
        (fun t => t.type == "Income") = [] →
      (getTransactionStats db uid q).totalIncome = 0 ∧
      (getTransactionStats db uid q).incomeCount = 0 ∧
      (getTransactionStats db uid q).averageIncome = 0) ∧
    ((db.filter (fun t => statsMatches uid q t)).filter
        (fun t => t.type == "Expense") = [] →
      (getTransactionStats db uid q).totalExpense = 0 ∧
      (getTransactionStats db uid q).expenseCount = 0 ∧
      (getTransactionStats db uid q).averageExpense = 0) ∧
    getTransactionStats exDb 1 exJanQuery =
      { totalIncome := 100, totalExpense := 40, netAmount := 60,
        incomeCount := 1, expenseCount := 1, totalTransactions := 2,
        averageIncome := 100, averageExpense := 40 } := by
  refine ⟨rfl, ?_, ?_, ?_⟩
  · intro hnil
    simp [getTransactionStats, hnil]
  · intro hnil
    simp [getTransactionStats, hnil]
  · simp [getTransactionStats, statsMatches, dateInRange, exDb, exIncome,
      exExpense, exJanQuery, Tdate.key]
    norm_num

/-- Witness for C3 at a concrete input: on the empty store every type group
is absent, and the theorem yields the zero defaults for the Income side. -/
theorem c3_type_stats_witness :
    (getTransactionStats [] 0 ⟨none, none⟩).totalIncome = 0 ∧
    (getTransactionStats [] 0 ⟨none, none⟩).incomeCount = 0 ∧
    (getTransactionStats [] 0 ⟨none, none⟩).averageIncome = 0 :=
  (c3_type_stats [] 0 ⟨none, none⟩).2.1 rfl

/-- C6: when no record carries the requested identifier, or the record with
that identifier is owned by a different user, lookup, update and delete all
answer with the very same 404 envelope (never a 403), and the store is left
unchanged, so foreign ownership is indistinguishable from absence. -/
theorem c6_not_found_identical (db : List Transaction) (uid i : Nat)
    (b : UpdateBody) (h : ∀ t ∈ db, t.id = i → t.userId ≠ uid) :
    getTransaction db uid i = notFoundResponse ∧
    updateTransaction db uid i b = (notFoundResponse, db) ∧
    deleteTransaction db uid i = (notFoundResponse, db) ∧
    notFoundResponse.status = 404 ∧
    notFoundResponse.success = false ∧
    notFoundResponse.message = "Transaction not found" := by
  have hfind : db.find? (idOwnerMatch i uid) = none := by
    rw [List.find?_eq_none]
    intro t ht hmatch
    simp only [idOwnerMatch, Bool.and_eq_true, beq_iff_eq] at hmatch
    exact h t ht hmatch.1 hmatch.2
  refine ⟨?_, ?_, ?_, rfl, rfl, rfl⟩
  · simp [getTransaction, hfind]
  · simp [updateTransaction, hfind]
  · simp [deleteTransaction, hfind]

/-- Witness for C6 at a concrete input: user 2 asks for record 1, which
exists but belongs to user 1 — the response is the 404 envelope and the
store is untouched. -/
theorem c6_not_found_identical_witness :
    getTransaction exDb 2 1 = notFoundResponse ∧
    updateTransaction exDb 2 1 emptyBody = (notFoundResponse, exDb) ∧
    deleteTransaction exDb 2 1 = (notFoundResponse, exDb) ∧
    notFoundResponse.status = 404 ∧
    notFoundResponse.success = false ∧
    notFoundResponse.message = "Transaction not found" :=
  c6_not_found_identical exDb 2 1 emptyBody (by decide)

/-- C10: an update whose body supplies none of the updatable fields passes
the all-optional validation and acts as the identity on an owner-matched
record: the handler answers success and the store is left exactly as it
was. -/
theorem c10_empty_update_identity (db : List Transaction) (uid i : Nat)
    (t : Transaction) (hfind : db.find? (idOwnerMatch i uid) = some t) :
    validUpdateBody emptyBody = true ∧
    (updateTransaction db uid i emptyBody).1.status = 200 ∧
    (updateTransaction db uid i emptyBody).1.success = true ∧
    (updateTransaction db uid i emptyBody).1.message =
      "Transaction updated successfully" ∧
    (updateTransaction db uid i emptyBody).1.transaction = some t ∧
    (updateTransaction db uid i emptyBody).2 = db := by
  have happ : ∀ u, applyUpdate emptyBody u = u := fun u => rfl
  refine ⟨rfl, ?_, ?_, ?_, ?_, ?_⟩ <;>
    simp [updateTransaction, hfind, happ, updateFirst_id happ]

/-- Witness for C10 at a concrete input: the empty update on record 1 of
user 1 succeeds and leaves the two-document store unchanged. -/
theorem c10_empty_update_identity_witness :
    validUpdateBody emptyBody = true ∧
    (updateTransaction exDb 1 1 emptyBody).1.status = 200 ∧
    (updateTransaction exDb 1 1 emptyBody).1.success = true ∧
    (updateTransaction exDb 1 1 emptyBody).1.message =
      "Transaction updated successfully" ∧
    (updateTransaction exDb 1 1 emptyBody).1.transaction = some exIncome ∧
    (updateTransaction exDb 1 1 emptyBody).2 = exDb :=
  c10_empty_update_identity exDb 1 1 exIncome (by decide)

/-- C4: every monthly-statistics entry carries all four per-side fields; a
side with no matching records in that (year, month) reports amount 0 and
count 0 rather than being omitted; and each entry derives
net = income - expense and totalTransactions = incomeCount + expenseCount. -/
theorem c4_monthly_entry_shape (db : List Transaction) (uid : Nat)
    (y : Option Int) (e : MonthStat) (he : e ∈ getMonthlyStats db uid y) :
    e.net = e.income - e.expense ∧
    e.totalTransactions = e.incomeCount + e.expenseCount ∧
    ((((db.filter (fun t => yearFilterMatches uid y t)).filter
        (fun t => monthKey t == (e.year, e.month))).filter
        (fun t => t.type == "Income")) = [] →
      e.income = 0 ∧ e.incomeCount = 0) ∧
    ((((db.filter (fun t => yearFilterMatches uid y t)).filter
        (fun t => monthKey t == (e.year, e.month))).filter
        (fun t => t.type != "Income")) = [] →
      e.expense = 0 ∧ e.expenseCount = 0) := by
  simp only [getMonthlyStats, List.mem_map] at he
  obtain ⟨k, hk, rfl⟩ := he
  obtain ⟨k1, k2⟩ := k
  refine ⟨rfl, rfl, ?_, ?_⟩
  · intro hnil
    simp only [hnil]
    simp
  · intro hnil
    simp only [hnil]
    simp

/-- The single month entry produced by a store holding only the Expense
document: the income side defaults to 0 / 0. -/
def exMonthOnlyExpense : MonthStat :=
  { year := 2024, month := 1, income := 0, expense := 40, incomeCount := 0,
    expenseCount := 1, net := -40, totalTransactions := 1 }

/-- Witness for C4 at a concrete input: January 2024 holds only an Expense
record, and its entry reports income 0 with incomeCount 0. -/
theorem c4_monthly_entry_shape_witness :
    exMonthOnlyExpense.income = 0 ∧ exMonthOnlyExpense.incomeCount = 0 :=
  (c4_monthly_entry_shape [exExpense] 1 (some 2024) exMonthOnlyExpense
      (by simp [getMonthlyStats, yearFilterMatches, monthKey, exExpense,
            Tdate.key, exMonthOnlyExpense])).2.2.1
    (by simp [yearFilterMatches, monthKey, exExpense, Tdate.key,
          exMonthOnlyExpense])

/-- C5: the category-statistics output has one entry per distinct
(category, type) pair with at least one matching record — no zero-filled
entries for absent pairs — each entry carrying that pair's sum, count and
mean, and the sequence is ordered non-increasing by total. -/
theorem c5_category_stats (db : List Transaction) (uid : Nat) (q : CatQuery) :
    (getCategoryStats db uid q).length =
      ((db.filter (fun t => catMatches uid q t)).map catKey).dedup.length ∧
    (∀ pr : String × String,
      pr ∈ ((db.filter (fun t => catMatches uid q t)).map catKey).dedup ↔
        ∃ t ∈ db.filter (fun t => catMatches uid q t), catKey t = pr) ∧
    List.Pairwise (fun a b : CatStat => b.total ≤ a.total)
      (getCategoryStats db uid q) ∧
    (∀ e ∈ getCategoryStats db uid q,
      e.total = (((db.filter (fun t => catMatches uid q t)).filter
          (fun t => catKey t == (e.category, e.type))).map Transaction.amount).sum ∧
      e.count = ((db.filter (fun t => catMatches uid q t)).filter
          (fun t => catKey t == (e.category, e.type))).length ∧
      e.average = e.total / (e.count : Rat)) := by
  refine ⟨?_, ?_, ?_, ?_⟩
  · unfold getCategoryStats
    rw [(List.perm_insertionSort catGe _).length_eq, List.length_map]
  · intro pr
    rw [List.mem_dedup, List.mem_map]
  · exact List.sorted_insertionSort catGe _
  · intro e he
    unfold getCategoryStats at he
    rw [(List.perm_insertionSort catGe _).mem_iff, List.mem_map] at he
    obtain ⟨k, hk, rfl⟩ := he
    obtain ⟨k1, k2⟩ := k
    exact ⟨rfl, rfl, rfl⟩

/-- The (Job, Income) entry of the category statistics of the two-document
store. -/
def exCatJob : CatStat :=
  { category := "Job", type := "Income", total := 100, count := 1,
    average := 100 }

/-- The (Groceries, Expense) entry of the category statistics of the
two-document store. -/
def exCatGroceries : CatStat :=
  { category := "Groceries", type := "Expense", total := 40, count := 1,
    average := 40 }

/-- Witness for C5 at a concrete input: the (Job, Income) entry of the
two-document store carries that pair's sum, count and mean. -/
theorem c5_category_stats_witness :
    exCatJob.total = (((exDb.filter (fun t => catMatches 1 ⟨none, none, none⟩ t)).filter
        (fun t => catKey t == (exCatJob.category, exCatJob.type))).map
          Transaction.amount).sum ∧
    exCatJob.count = ((exDb.filter (fun t => catMatches 1 ⟨none, none, none⟩ t)).filter
        (fun t => catKey t == (exCatJob.category, exCatJob.type))).length ∧
    exCatJob.average = exCatJob.total / (exCatJob.count : Rat) :=
  (c5_category_stats exDb 1 ⟨none, none, none⟩).2.2.2 exCatJob
    (by
      have h : getCategoryStats exDb 1 ⟨none, none, none⟩ =
          [exCatJob, exCatGroceries] := by
        simp [getCategoryStats, catMatches, dateInRange, exDb, exIncome,
          exExpense, catKey, List.insertionSort, List.orderedInsert, catGe,
          exCatJob, exCatGroceries]
        norm_num
      rw [h]
      simp)

/-- C7 fails on the code: the three statistics handlers never call
validationResult, although the router attaches the queryValidation chain to
their routes and every CRUD handler does check it.  A request whose query
the validation layer has flagged (here the invalid type Foo) is therefore
not rejected with 400: the category-statistics handler executes the
aggregation anyway (over a filter that matches nothing) and answers 200
success, and the other two statistics handlers answer 200 as well, while
the list handler under the very same recorded errors answers 400. -/
theorem c7_stats_handlers_skip_validation :
    typeQueryErrors (some "Foo") = ["Type must be Income or Expense"] ∧
    (getTransactionsHandler (typeQueryErrors (some "Foo")) exDb 1
        ⟨none, none, none, some "Foo", none, 1, 10, "date", "desc"⟩).status = 400 ∧
    getCategoryStatsHandler (typeQueryErrors (some "Foo")) exDb 1
        ⟨none, none, some "Foo"⟩ =
      { status := 200, success := true, data := some [], errors := [] } ∧
    (getTransactionStatsHandler (typeQueryErrors (some "Foo")) exDb 1
        ⟨none, none⟩).status = 200 ∧
    (getTransactionStatsHandler (typeQueryErrors (some "Foo")) exDb 1
        ⟨none, none⟩).success = true ∧
    (getMonthlyStatsHandler (typeQueryErrors (some "Foo")) exDb 1 none).status
      = 200 := by
  refine ⟨rfl, rfl, ?_, rfl, rfl, rfl⟩
  simp [getCategoryStatsHandler, getCategoryStats, catMatches, dateInRange,
    exDb, exIncome, exExpense]

/-- C8: for an update on an owner-matched record, exactly the supplied
fields overwrite the stored record (strings trimmed as the source trims
them), every absent field keeps its prior value, the identity fields are
untouched, and a body passing the per-field update validation merged into a
valid stored record yields a valid stored record — validation holds on the
merged result, which the source re-checks with runValidators. -/
theorem c8_sparse_update (db : List Transaction) (uid i : Nat)
    (b : UpdateBody) (t : Transaction)
    (hfind : db.find? (idOwnerMatch i uid) = some t) :
    (updateTransaction db uid i b).1.transaction = some (applyUpdate b t) ∧
    applyUpdate b t ∈ (updateTransaction db uid i b).2 ∧
    (b.date = none → (applyUpdate b t).date = t.date) ∧
    (∀ d, b.date = some d → (applyUpdate b t).date = d) ∧
    (b.description = none → (applyUpdate b t).description = t.description) ∧
    (∀ s, b.description = some s → (applyUpdate b t).description = s.trim) ∧
    (b.amount = none → (applyUpdate b t).amount = t.amount) ∧
    (∀ a, b.amount = some a → (applyUpdate b t).amount = a) ∧
    (b.category = none → (applyUpdate b t).category = t.category) ∧
    (∀ s, b.category = some s → (applyUpdate b t).category = s.trim) ∧
    (b.type = none → (applyUpdate b t).type = t.type) ∧
    (∀ s, b.type = some s → (applyUpdate b t).type = s) ∧
    (applyUpdate b t).id = t.id ∧
    (applyUpdate b t).userId = t.userId ∧
    (validUpdateBody b = true → validTx t = true →
      validTx (applyUpdate b t) = true) := by
  refine ⟨?_, ?_, ?_, ?_, ?_, ?_, ?_, ?_, ?_, ?_, ?_, ?_, rfl, rfl, ?_⟩
  · simp [updateTransaction, hfind]
  · simp only [updateTransaction, hfind]
    exact find?_mem_updateFirst hfind
  · intro h; simp [applyUpdate, h]
  · intro d h; simp [applyUpdate, h]
  · intro h; simp [applyUpdate, h]
  · intro s h; simp [applyUpdate, h]
  · intro h; simp [applyUpdate, h]
  · intro a h; simp [applyUpdate, h]
  · intro h; simp [applyUpdate, h]
  · intro s h; simp [applyUpdate, h]
  · intro h; simp [applyUpdate, h]
  · intro s h; simp [applyUpdate, h]
  · intro hb ht
    obtain ⟨bd, bds, bam, bcat, bty⟩ := b
    cases bd <;> cases bds <;> cases bam <;> cases bcat <;> cases bty <;>
      simp_all [validUpdateBody, validTx, applyUpdate]

/-- A sparse update body supplying only a new amount and a new type. -/
def exPatchBody : UpdateBody :=
  { date := none, description := none, amount := some 12, category := none,
    type := some "Expense" }

/-- Witness for C8 at a concrete input: patching record 1 of user 1 with
amount 12 and type Expense reports the merged record and the merged record
is valid. -/
theorem c8_sparse_update_witness :
    (updateTransaction exDb 1 1 exPatchBody).1.transaction =
      some (applyUpdate exPatchBody exIncome) ∧
    validTx (applyUpdate exPatchBody exIncome) = true :=
  ⟨(c8_sparse_update exDb 1 1 exPatchBody exIncome (by decide)).1,
   (c8_sparse_update exDb 1 1 exPatchBody exIncome
        (by decide)).2.2.2.2.2.2.2.2.2.2.2.2.2.2
      (by simp [validUpdateBody, exPatchBody]; norm_num)
      (by
        simp [validTx, exIncome]
        exact ⟨⟨⟨⟨by decide, by decide⟩, by norm_num⟩, by decide⟩,
          by decide⟩)⟩

/-- The Income document of user 1 dated 2024-12-31 at noon (a time of day
later than midnight on December 31). -/
def exLateDec : Transaction :=
  { id := 3, userId := 1, date := ⟨2024, 12, 31, 43200000⟩,
    description := "late december", amount := 5, category := "Misc",
    type := "Income" }

/-- C9 counterexample: the claim says a monthly-statistics request with a
year aggregates every owned transaction dated in that calendar year, through
the end of December 31.  The code builds the year range up to the Date
parsed from year-12-31, which is midnight at the START of December 31, so
the user-1 transaction dated 2024-12-31 at noon — a valid date inside
calendar year 2024 — fails the storage filter and the aggregation over a
store holding exactly that transaction is empty; without the year parameter
the same store yields one month entry, isolating the year filter as the
cause. -/
theorem c9_year_filter_counterexample :
    exLateDec.userId = 1 ∧ exLateDec.date.year = 2024 ∧
    validDate exLateDec.date ∧
    yearFilterMatches 1 (some 2024) exLateDec = false ∧
    getMonthlyStats [exLateDec] 1 (some 2024) = [] ∧
    (getMonthlyStats [exLateDec] 1 none).length = 1 := by
  refine ⟨rfl, rfl, by decide, by decide, ?_, ?_⟩
  · simp [getMonthlyStats, yearFilterMatches, exLateDec, Tdate.key]
  · simp [getMonthlyStats, yearFilterMatches, monthKey, exLateDec]

/-- C9 amended: for a monthly-statistics request with a year, the
aggregation includes exactly the requester's transactions dated from the
start of January 1 of that year up to and including the midnight instant at
the start of December 31 — i.e. every transaction of the calendar year
except those with a time of day after midnight on December 31, which are
excluded. -/
theorem c9_year_filter_amended (db : List Transaction) (uid : Nat) (y : Int)
    (t : Transaction) (hv : validDate t.date) :
    t ∈ db.filter (fun u => yearFilterMatches uid (some y) u) ↔
      t ∈ db ∧ t.userId = uid ∧ t.date.year = y ∧
        ¬(t.date.month = 12 ∧ t.date.day = 31 ∧ 0 < t.date.ms) := by
  obtain ⟨h1, h2, h3, h4, h5⟩ := hv
  rw [List.mem_filter]
  have hiff : yearFilterMatches uid (some y) t = true ↔
      (t.userId = uid ∧ t.date.year = y ∧
        ¬(t.date.month = 12 ∧ t.date.day = 31 ∧ 0 < t.date.ms)) := by
    simp only [yearFilterMatches, Tdate.key, Bool.and_eq_true, beq_iff_eq,
      decide_eq_true_iff]
    constructor
    · rintro ⟨hu, hge, hle⟩
      refine ⟨hu, ?_, ?_⟩
      · omega
      · omega
    · rintro ⟨hu, hy, hne⟩
      subst hy
      refine ⟨hu, ?_, ?_⟩
      · omega
      · omega
  rw [hiff]

/-- Witness for the amended C9 at a concrete input: the user-1 Income
document dated 2024-01-05 passes the year-2024 storage filter. -/
theorem c9_year_filter_amended_witness :
    exIncome ∈ exDb.filter (fun u => yearFilterMatches 1 (some 2024) u) :=
  (c9_year_filter_amended exDb 1 2024 exIncome (by decide)).mpr
    ⟨by decide, rfl, rfl, by decide⟩
